import Mathlib

set_option maxRecDepth 8192

/-!
Verification development for the tiktokstatsbot repository (src/main.py).

The source is a Telegram bot that tracks TikTok video statistics.  The parts
relevant to the claims are embedded below as executable Lean definitions:

* a `Json` value type modelling the Python dicts/lists/scalars that flow
  through the stats extractor;
* `get_video_stats`: the shape-detection, counter normalization and validity
  gate of `TikTokMonitor.get_video_stats` (src/main.py lines 211-265);
* `extract_stats_from_json`: the recursive JSON search
  `TikTokMonitor._extract_stats_from_json` (lines 398-462), given as a
  fuel-indexed function `exF` plus a canonical entry point;
* the `VideoTracker` store operations (`add_video`, `remove_video`,
  `get_user_videos`, `update_video_stats`, `load_data`, lines 36-129);
* the milestone logic of `check_videos_task` (lines 644-698), split into
  `evaluate_milestone` (lines 666-669) and the per-item sweep body
  `check_video_step`.
-/

mutual
/-- A JSON/Python value as it appears in the payloads handled by main.py.
Numbers are modelled as naturals (the counters in the payloads are
non-negative integers).  Objects and arrays are mutual inductives so that
equality and size are derivable/computable. -/
inductive Json where
  | null : Json
  | num (n : Nat) : Json
  | str (s : String) : Json
  | bool (b : Bool) : Json
  | obj (fields : JFields) : Json
  | arr (elems : JElems) : Json
deriving Repr, DecidableEq
/-- The ordered key/value fields of a JSON object (Python dict, insertion
order). -/
inductive JFields where
  | nil : JFields
  | cons (k : String) (v : Json) (rest : JFields) : JFields
deriving Repr, DecidableEq
/-- The ordered elements of a JSON array (Python list). -/
inductive JElems where
  | nil : JElems
  | cons (v : Json) (rest : JElems) : JElems
deriving Repr, DecidableEq
end

mutual
/-- Size of a JSON value, used to compute sufficient fuel for the recursive
search. -/
def jsize : Json → Nat
  | .null => 1
  | .num _ => 1
  | .str _ => 1
  | .bool _ => 1
  | .obj fs => 1 + jsizeFs fs
  | .arr es => 1 + jsizeEs es
/-- Size of an object's field list. -/
def jsizeFs : JFields → Nat
  | .nil => 0
  | .cons _ v rest => 1 + jsize v + jsizeFs rest
/-- Size of an array's element list. -/
def jsizeEs : JElems → Nat
  | .nil => 0
  | .cons v rest => 1 + jsize v + jsizeEs rest
end

/-- First binding of a key in an object (Python dicts have unique keys, so
first-match lookup models `d[k]` and `k in d`). -/
def JFields.lookup? : JFields → String → Option Json
  | .nil, _ => none
  | .cons k v rest, key => if k = key then some v else JFields.lookup? rest key

/-- First `n` fields of an object, modelling `list(data.items())[:n]`. -/
def JFields.take : Nat → JFields → JFields
  | 0, _ => .nil
  | _, .nil => .nil
  | n + 1, .cons k v rest => .cons k v (JFields.take n rest)

/-- Whether an object has no fields. -/
def JFields.isEmpty : JFields → Bool
  | .nil => true
  | .cons _ _ _ => false

/-- Whether an array has no elements. -/
def JElems.isEmpty : JElems → Bool
  | .nil => true
  | .cons _ _ => false

/-- Python truthiness of a value (`if x:`): None, 0, "", False and empty
containers are falsy. -/
def truthy : Json → Bool
  | .null => false
  | .num n => n != 0
  | .str s => s != ""
  | .bool b => b
  | .obj fs => !fs.isEmpty
  | .arr es => !es.isEmpty

/-- The comparison `v > 0` used in the gates `any(v > 0 for v in ...)`.
On a non-numeric value the Python comparison raises TypeError; in
`get_video_stats` that exception is swallowed by the enclosing
`except Exception`, which also leads to the `return None` outcome, so
treating non-numbers as not-positive gives the same observable result there.
All inputs used in the theorems below carry numeric counters only. -/
def jsonPos : Json → Bool
  | .num n => 0 < n
  | _ => false

/-- Python `a or b`: the left operand if truthy, otherwise the right. -/
def pyOr (a b : Json) : Json := if truthy a then a else b

/-- Python `d.get(k)`: the value if present, else None. -/
def pyGet (fs : JFields) (k : String) : Json :=
  (fs.lookup? k).getD Json.null

/-- `stats.get('playCount') or stats.get('viewCount') or 0`
(src/main.py line 247 and line 424). -/
def normViews (fs : JFields) : Json :=
  pyOr (pyOr (pyGet fs "playCount") (pyGet fs "viewCount")) (Json.num 0)

/-- `stats.get('diggCount') or stats.get('likeCount') or 0`
(src/main.py line 248 and line 425). -/
def normLikes (fs : JFields) : Json :=
  pyOr (pyOr (pyGet fs "diggCount") (pyGet fs "likeCount")) (Json.num 0)

/-- `stats.get('shareCount') or 0` (src/main.py line 249 and line 426). -/
def normShares (fs : JFields) : Json :=
  pyOr (pyGet fs "shareCount") (Json.num 0)

/-- `stats.get('collectCount') or 0` (src/main.py line 250 and line 427). -/
def normFavorites (fs : JFields) : Json :=
  pyOr (pyGet fs "collectCount") (Json.num 0)

/-- The `result` dict built at src/main.py lines 246-251. -/
structure RawStats where
  views : Json
  likes : Json
  shares : Json
  favorites : Json
deriving Repr, DecidableEq

/-- Normalization of a resolved stats sub-object (lines 246-251). -/
def normalizeStats (fs : JFields) : RawStats :=
  ⟨normViews fs, normLikes fs, normShares fs, normFavorites fs⟩

/-- `any(v > 0 for v in result.values())` (line 254), values in dict
insertion order views, likes, shares, favorites. -/
def anyPosR (r : RawStats) : Bool :=
  jsonPos r.views || jsonPos r.likes || jsonPos r.shares || jsonPos r.favorites

/-- Lines 212-227 of src/main.py: the first shape-detection block of
`get_video_stats`.  `stats` starts as None (here `Json.null`); it is set from
`video_data['stats']`, else (elif-chained) from
`video_data['itemInfo']['itemStruct']['stats']` with dict checks at each
step, else from `video_data['videoInfo']['stats']`. -/
def locateFirst (video_data : Json) : Json :=
  match video_data with
  | .obj fs =>
    match fs.lookup? "stats" with
    | some sd => sd
    | none =>
      match fs.lookup? "itemInfo" with
      | some ii =>
        (match ii with
         | .obj ifs =>
           (match ifs.lookup? "itemStruct" with
            | some (.obj sfs) =>
              (match sfs.lookup? "stats" with
               | some sd => sd
               | none => Json.null)
            | _ => Json.null)
         | _ => Json.null)
      | none =>
        match fs.lookup? "videoInfo" with
        | some (.obj vfs) =>
          (match vfs.lookup? "stats" with
           | some sd => sd
           | none => Json.null)
        | _ => Json.null
  | _ => Json.null

/-- The four root-level counter keys probed at line 232. -/
def directKeys : List String := ["playCount", "viewCount", "diggCount", "likeCount"]

/-- Lines 230-233: if no stats were found yet and the payload is a dict with
a root-level counter key, use the payload itself as the stats object. -/
def locateSecond (video_data stats : Json) : Json :=
  if truthy stats then stats
  else
    match video_data with
    | .obj fs =>
      if directKeys.any (fun k => (fs.lookup? k).isSome) then Json.obj fs else stats
    | _ => stats

/-- Lines 236-242: if still no stats, fall back to the result of the external
`await video.stats()` call, accepted only when it is a dict.  That call is an
external effect, so it is passed in as an explicit optional input (`none`
models both "the method raised" and "it returned a non-dict"). -/
def locateMethod (stats : Json) (sm : Option Json) : Json :=
  if truthy stats then stats
  else
    match sm with
    | some (.obj mfs) => Json.obj mfs
    | _ => stats

/-- The stats-extraction core of `TikTokMonitor.get_video_stats`
(src/main.py lines 211-265): shape detection, normalization (lines 245-251)
and the all-zero validity gate (line 254).  `video_data` is the payload
returned by `video.info()`, `sm` the optional result of `video.stats()`.
Returns `none` for the `return None` outcome (no stats found, all-zero
stats, or an exception). -/
def get_video_stats (video_data : Json) (sm : Option Json) : Option RawStats :=
  let s3 := locateMethod (locateSecond video_data (locateFirst video_data)) sm
  if truthy s3 then
    match s3 with
    | .obj fs =>
      let r := normalizeStats fs
      if anyPosR r then some r else none
    | _ => none
  else none

/-- The partial `stats` dict built inside `_extract_stats_from_json`
(src/main.py line 418): each of the four counters may or may not have been
inserted. -/
structure PStats where
  views : Option Json := none
  likes : Option Json := none
  shares : Option Json := none
  favorites : Option Json := none
deriving Repr, DecidableEq

/-- Whether the partial stats dict is non-empty (Python truthiness of the
`stats` dict). -/
def PStats.present (p : PStats) : Bool :=
  p.views.isSome || p.likes.isSome || p.shares.isSome || p.favorites.isSome

/-- `stats.values()`: the values of the keys actually present. -/
def PStats.vals (p : PStats) : List Json :=
  [p.views, p.likes, p.shares, p.favorites].filterMap id

/-- `any(v > 0 for v in stats.values())`. -/
def goodP (p : PStats) : Bool := p.vals.any jsonPos

/-- `result and any(v > 0 for v in result.values())` for an optional result. -/
def goodO : Option PStats → Bool
  | none => false
  | some p => goodP p

/-- The dict branch of the `'stats' in data` case (lines 421-427): all four
counters are inserted. -/
def fullNorm (sfs : JFields) : PStats :=
  ⟨some (normViews sfs), some (normLikes sfs), some (normShares sfs),
   some (normFavorites sfs)⟩

/-- `if result: stats.update(result)` on the empty dict (line 430-432):
a None or empty result leaves the dict empty, otherwise its fields are
taken over. -/
def mergeBase : Option PStats → PStats
  | some p => if p.present then p else {}
  | none => {}

/-- Lines 434-442: root-level counter keys overwrite the corresponding
entries of the partial stats dict. -/
def applyDirect (fs : JFields) (p : PStats) : PStats :=
  let p1 := if (fs.lookup? "playCount").isSome || (fs.lookup? "viewCount").isSome then
    { p with views := some (normViews fs) } else p
  let p2 := if (fs.lookup? "diggCount").isSome || (fs.lookup? "likeCount").isSome then
    { p1 with likes := some (normLikes fs) } else p1
  let p3 := if (fs.lookup? "shareCount").isSome then
    { p2 with shares := some (normShares fs) } else p2
  if (fs.lookup? "collectCount").isSome then
    { p3 with favorites := some (normFavorites fs) } else p3

/-- Lines 448-462: after the priority scan (`rp`) and, if needed, the
fallback scan (`rf`), decide what the call returns.  A successful priority
result is returned first; else the accumulated stats if some counter is
positive; else a successful fallback result; else the accumulated stats if
non-empty, else None. -/
def nodeCombine (stats2 : PStats) (rp rf : Option PStats) : Option PStats :=
  match rp with
  | some p => some p
  | none =>
    if stats2.present && goodP stats2 then some stats2
    else
      match rf with
      | some p => some p
      | none => if stats2.present then some stats2 else none

/-- Whether a value is a dict or a list (`isinstance(value, (dict, list))`,
line 457). -/
def Json.isObjOrArr : Json → Bool
  | .obj _ => true
  | .arr _ => true
  | _ => false

/-- The priority container keys searched first (line 445). -/
def prioKeys : List String := ["videoInfo", "itemInfo", "itemStruct", "video", "item"]

/-- The keys excluded from the fallback scan (line 457). -/
def exclKeys : List String := ["stats", "videoInfo", "itemInfo"]

/-- The work items of `_extract_stats_from_json`: a call on a value, the
loop over a list's elements (lines 410-415), the loop over the priority keys
(lines 444-449), and the fallback loop over the first 20 fields
(lines 455-460). -/
inductive ExTask where
  | node (d : Json)
  | scanL (items : JElems)
  | scanP (keys : List String) (fs : JFields)
  | scanF (fields : JFields)
deriving Repr

/-- Fuel-indexed interpreter of `_extract_stats_from_json`
(src/main.py lines 398-462).  The outer `Option` is the fuel marker:
`none` means the fuel ran out (which never happens at sufficient fuel, see
`exF_isSome`), `some r` means the Python call returns `r` (itself None or a
stats dict).  The `.str` case models `json.loads` on an embedded string as a
parse failure (`return None`); no input considered in this file contains a
string that parses as JSON.  Sub-scans are evaluated eagerly; at sufficient
fuel this yields exactly the value the short-circuiting Python code
returns, since `nodeCombine` consults the fallback scan's result only when
the Python code would have run it. -/
def exF : Nat → ExTask → Option (Option PStats)
  | 0, _ => none
  | _ + 1, .node .null => some none
  | _ + 1, .node (.num _) => some none
  | _ + 1, .node (.str _) => some none
  | _ + 1, .node (.bool _) => some none
  | f + 1, .node (.arr items) => exF f (.scanL items)
  | f + 1, .node (.obj fs) =>
    match fs.lookup? "stats" with
    | some (.arr (.cons h _)) =>
      match exF f (.node h), exF f (.scanP prioKeys fs), exF f (.scanF (JFields.take 20 fs)) with
      | some r, some rp, some rf => some (nodeCombine (applyDirect fs (mergeBase r)) rp rf)
      | _, _, _ => none
    | some (.obj sfs) =>
      match exF f (.scanP prioKeys fs), exF f (.scanF (JFields.take 20 fs)) with
      | some rp, some rf => some (nodeCombine (applyDirect fs (fullNorm sfs)) rp rf)
      | _, _ => none
    | _ =>
      match exF f (.scanP prioKeys fs), exF f (.scanF (JFields.take 20 fs)) with
      | some rp, some rf => some (nodeCombine (applyDirect fs ({} : PStats)) rp rf)
      | _, _ => none
  | _ + 1, .scanL .nil => some none
  | f + 1, .scanL (.cons x rest) =>
    match exF f (.node x) with
    | none => none
    | some r => if goodO r then some r else exF f (.scanL rest)
  | _ + 1, .scanP [] _ => some none
  | f + 1, .scanP (k :: ks) fs =>
    match fs.lookup? k with
    | some (.obj kfs) =>
      (match exF f (.node (.obj kfs)) with
       | none => none
       | some r => if goodO r then some r else exF f (.scanP ks fs))
    | _ => exF f (.scanP ks fs)
  | _ + 1, .scanF .nil => some none
  | f + 1, .scanF (.cons k v rest) =>
    if v.isObjOrArr && !(exclKeys.contains k) then
      match exF f (.node v) with
      | none => none
      | some r => if goodO r then some r else exF f (.scanF rest)
    else exF f (.scanF rest)

/-- A fuel budget sufficient for `exF` on input `d` (see `exF_isSome`). -/
def exFuel (d : Json) : Nat := 8 * jsize d + 8

/-- `TikTokMonitor._extract_stats_from_json(data)` as a total function:
`exF` run with sufficient fuel. -/
def extract_stats_from_json (d : Json) : Option PStats :=
  (exF (exFuel d) (.node d)).getD none

/-- Measure justifying that `exF` completes: every recursive call strictly
decreases it. -/
def exMeasure : ExTask → Nat
  | .node d => 8 * jsize d
  | .scanL items => 8 * jsizeEs items + 1
  | .scanP keys fs => keys.length + 8 * jsizeFs fs + 1
  | .scanF fields => 8 * jsizeFs fields + 1

/-- `evaluate(previousNotifiedMilestone, currentViews)`: the milestone
comparison of `check_videos_task` (src/main.py lines 666-669).
`some m` models firing the milestone `m`; `none` models no notification. -/
def evaluate_milestone (last_notified current_views : Nat) : Option Nat :=
  let current_milestone := current_views / 50000 * 50000
  let last_milestone := last_notified / 50000 * 50000
  if current_milestone > last_milestone ∧ current_milestone > 0 then
    some current_milestone
  else none

/-- One tracked-video record as stored in `tracked_videos.json`
(src/main.py lines 71-80). -/
structure VideoEntry where
  video_id : String
  video_url : String
  added_at : String
  last_views : Nat
  last_likes : Nat
  last_shares : Nat
  last_favorites : Nat
  notified_at_views : Nat
deriving Repr, DecidableEq

/-- `VideoTracker.data`: user id -> list of tracked videos.  Python keys the
dict by `str(user_id)`; decimal rendering of the int ids is injective, so
the model keys by the ids themselves. -/
abbrev Store := List (Nat × List VideoEntry)

/-- The numeric stats dict handed to `update_video_stats` and
`check_videos_task` (keys views/likes/shares/favorites). -/
structure Snapshot where
  views : Nat
  likes : Nat
  shares : Nat
  favorites : Nat
deriving Repr, DecidableEq

/-- `user_key in self.data` / `self.data[user_key]`. -/
def storeGet? : Store → Nat → Option (List VideoEntry)
  | [], _ => none
  | (u, vs) :: rest, user => if u = user then some vs else storeGet? rest user

/-- `self.data[user_key] = vs` (insert at the end when the key is new,
matching dict insertion order). -/
def storeSet : Store → Nat → List VideoEntry → Store
  | [], user, vs => [(user, vs)]
  | (u, ws) :: rest, user, vs =>
    if u = user then (u, vs) :: rest else (u, ws) :: storeSet rest user vs

/-- `VideoTracker.get_user_videos` (src/main.py lines 103-105). -/
def get_user_videos (s : Store) (user : Nat) : List VideoEntry :=
  (storeGet? s user).getD []

/-- The fresh record appended by `add_video` (lines 71-80): zero counters
and `notified_at_views = 0`. -/
def mkVideoEntry (vid url now : String) : VideoEntry :=
  ⟨vid, url, now, 0, 0, 0, 0, 0⟩

/-- `VideoTracker.add_video` (src/main.py lines 60-82).  Returns
`(False, unchanged)` when the (user, video_id) pair is already tracked,
otherwise appends a fresh zeroed record. -/
def add_video (s : Store) (user : Nat) (url vid now : String) : Bool × Store :=
  let vs := (storeGet? s user).getD []
  if vs.any (fun v => v.video_id = vid) then (false, s)
  else (true, storeSet s user (vs ++ [mkVideoEntry vid url now]))

/-- Outcome of `VideoTracker.remove_video`: `removed`/`notFound` carry the
resulting store; `keyError` models the uncaught KeyError raised when
`self.data[user_key]` is read at line 98 after line 96 deleted that key. -/
inductive RemoveResult where
  | removed (s : Store)
  | notFound (s : Store)
  | keyError
deriving Repr, DecidableEq

/-- `VideoTracker.remove_video` (src/main.py lines 84-101), statement by
statement: missing user key returns False; otherwise the user's list is
filtered; if the filtered list is empty the key is deleted (line 96) and the
following `len(self.data[user_key])` (line 98) raises KeyError; otherwise
True/False according to whether the filter removed something. -/
def remove_video (s : Store) (user : Nat) (vid : String) : RemoveResult :=
  match storeGet? s user with
  | none => .notFound s
  | some vs =>
    let initial := vs.length
    let vs2 := vs.filter (fun v => v.video_id ≠ vid)
    let s1 := storeSet s user vs2
    if vs2.length = 0 then .keyError
    else if vs2.length < initial then .removed s1
    else .notFound s1

/-- Helper for `update_video_stats`: the loop at lines 113-119 updates the
first record with the given video_id (ids are unique per user) and breaks. -/
def updateFirstStats : List VideoEntry → String → Snapshot → List VideoEntry
  | [], _, _ => []
  | v :: rest, vid, st =>
    if v.video_id = vid then
      { v with last_views := st.views, last_likes := st.likes,
               last_shares := st.shares, last_favorites := st.favorites } :: rest
    else v :: updateFirstStats rest vid st

/-- `VideoTracker.update_video_stats` (src/main.py lines 107-121): overwrites
the four `last_*` counters; `notified_at_views` is untouched; no-op when the
user key is absent. -/
def update_video_stats (s : Store) (user : Nat) (vid : String) (st : Snapshot) : Store :=
  match storeGet? s user with
  | none => s
  | some vs => storeSet s user (updateFirstStats vs vid st)

/-- Helper for the sweep: `video['notified_at_views'] = current_milestone`
(line 691) sets the field on the aliased store record. -/
def setFirstNotified : List VideoEntry → String → Nat → List VideoEntry
  | [], _, _ => []
  | v :: rest, vid, m =>
    if v.video_id = vid then { v with notified_at_views := m } :: rest
    else v :: setFirstNotified rest vid m

/-- Store update corresponding to line 691 followed by `save_data`. -/
def setNotified (s : Store) (user : Nat) (vid : String) (m : Nat) : Store :=
  match storeGet? s user with
  | none => s
  | some vs => storeSet s user (setFirstNotified vs vid m)

/-- The body of `check_videos_task` for one tracked item
(src/main.py lines 650-696), given the fetched stats `st` and whether the
Telegram `send_message` call succeeds (`deliveryOk`).  The previous
`notified_at_views` is read first (line 654), the store is updated with the
fresh counters (line 663), and on a fired milestone the notified value is
recorded only after a successful send (lines 683-692): a raised delivery
error jumps to the `except` handler (line 695), skipping the record. -/
def check_video_step (s : Store) (user : Nat) (vid : String) (st : Snapshot)
    (deliveryOk : Bool) : Store :=
  match (get_user_videos s user).find? (fun v => v.video_id = vid) with
  | none => s
  | some e =>
    let s1 := update_video_stats s user vid st
    match evaluate_milestone e.notified_at_views st.views with
    | some cm => if deliveryOk then setNotified s1 user vid cm else s1
    | none => s1

/-- `VideoTracker.load_data` (src/main.py lines 42-50).  `fileExists` models
`os.path.exists(DATA_FILE)`; `parsed` is the result of `json.load`, `none`
when it raises.  Any exception is caught, logged, and the empty dict is
returned; the function never propagates an error. -/
def load_data (fileExists : Bool) (parsed : Option Store) : Store :=
  if fileExists then
    match parsed with
    | some s => s
    | none => []
  else []

/-- All (user, video_id, notified_at_views) triples of a store, used to state
which operations leave every notified milestone unchanged. -/
def notifieds (s : Store) : List (Nat × String × Nat) :=
  s.flatMap (fun p => p.2.map (fun e => (p.1, e.video_id, e.notified_at_views)))

/-- Whether one record's `notified_at_views` is a multiple of 50,000. -/
def multOk (e : VideoEntry) : Bool := e.notified_at_views % 50000 == 0

/-- Whether every record's `notified_at_views` is a multiple of 50,000. -/
def allMult (s : Store) : Bool :=
  s.all (fun p => p.2.all multOk)

/-- The all-zero stats payload from the spec scenario
(playCount/diggCount/shareCount/collectCount all 0). -/
def zeroPayload : Json :=
  Json.obj (.cons "stats" (Json.obj (.cons "playCount" (Json.num 0)
    (.cons "diggCount" (Json.num 0) (.cons "shareCount" (Json.num 0)
      (.cons "collectCount" (Json.num 0) .nil))))) .nil)

/-- The spec scenario payload with the stats nested under a "data" key. -/
def dataStatsPayload : Json :=
  Json.obj (.cons "data" (Json.obj (.cons "stats"
    (Json.obj (.cons "playCount" (Json.num 1000)
      (.cons "diggCount" (Json.num 5) .nil))) .nil)) .nil)

/-- A payload carrying the given positive play count under a "stats" key. -/
def statsLeaf (n : Nat) : Json :=
  Json.obj (.cons "stats" (Json.obj (.cons "playCount" (Json.num n) .nil)) .nil)

/-- `n` nested singleton objects wrapped around a value. -/
def wrapObj : Nat → Json → Json
  | 0, d => d
  | n + 1, d => Json.obj (.cons "a" (wrapObj n d) .nil)

/-- Stats nested 12 object levels deep. -/
def deepPayload : Json := wrapObj 12 (statsLeaf 7)

/-- `n` nulls prepended to a list. -/
def prependNulls : Nat → JElems → JElems
  | 0, es => es
  | n + 1, es => .cons Json.null (prependNulls n es)

/-- A list of 11 elements whose stats sit in the 11th element. -/
def listPayload : Json := Json.arr (prependNulls 10 (.cons (statsLeaf 3) .nil))

/-- `n` filler fields (empty objects under fresh non-container keys) put in
front of the given fields. -/
def fillerFields : Nat → JFields → JFields
  | 0, fs => fs
  | n + 1, fs => .cons (String.append "k" (Nat.repr n)) (Json.obj .nil) (fillerFields n fs)

/-- An object of 21 keys whose stats hang under the 21st. -/
def breadth21 : Json := Json.obj (fillerFields 20 (.cons "tail" (statsLeaf 9) .nil))

/-- An object of 20 keys whose stats hang under the 20th. -/
def breadth20 : Json := Json.obj (fillerFields 19 (.cons "tail" (statsLeaf 9) .nil))

/-- Positive stats both under a non-priority key coming first in insertion
order and under the priority key "videoInfo". -/
def prioPayload : Json :=
  Json.obj (.cons "zz" (statsLeaf 111) (.cons "videoInfo" (statsLeaf 222) .nil))

/-- An HTML page embedding a parseable JSON fragment with a positive play
count behind the __UNIVERSAL_DATA_FOR_REHYDRATION__ marker string. -/
def sampleHtml : String :=
  "<script id=\"__UNIVERSAL_DATA_FOR_REHYDRATION__\">\x7b\"stats\":\x7b\"playCount\":123\x7d\x7d</script>"

/-- Store after user 1 starts tracking video v1 (freshly zeroed record). -/
def storeAdded : Store := (add_video [] 1 "url" "v1" "t").2

/-- A sweep snapshot with 162,000 views. -/
def snap162 : Snapshot := ⟨162000, 10, 2, 1⟩

/-- A later snapshot whose fetched view count is lower. -/
def snap100 : Snapshot := ⟨100000, 10, 2, 1⟩

/-- Store after a sweep observing 162,000 views with successful delivery. -/
def storeNotified : Store := check_video_step storeAdded 1 "v1" snap162 true

/-- Store after a sweep observing 162,000 views whose notification delivery
failed. -/
def storeFailDelivery : Store := check_video_step storeAdded 1 "v1" snap162 false


/-- Every JSON value has positive size. -/
theorem jsize_pos (d : Json) : 0 < jsize d := by
  cases d <;> simp [jsize]

/-- A value found under a key is smaller than the field list holding it. -/
theorem lookup?_jsize {k : String} {v : Json} :
    ∀ (fs : JFields), fs.lookup? k = some v → jsize v < jsizeFs fs
  | .nil, h => by simp [JFields.lookup?] at h
  | .cons k0 v0 rest, h => by
    simp only [JFields.lookup?] at h
    by_cases hk : k0 = k
    · simp [hk] at h
      subst h
      simp [jsizeFs]
      omega
    · simp [hk] at h
      have := lookup?_jsize rest h
      simp [jsizeFs]
      omega

/-- Taking a prefix of the fields does not increase the size. -/
theorem take_jsize : ∀ (n : Nat) (fs : JFields), jsizeFs (JFields.take n fs) ≤ jsizeFs fs
  | 0, fs => by
    cases fs <;> simp [JFields.take, jsizeFs]
  | n + 1, .nil => by simp [JFields.take]
  | n + 1, .cons k v rest => by
    have := take_jsize n rest
    simp [JFields.take, jsizeFs]
    omega

/-- `exF` completes (does not run out of fuel) whenever the fuel exceeds the
task measure: the recursive JSON search terminates on every input, with work
bounded linearly in the input size. -/
theorem exF_isSome : ∀ (f : Nat) (t : ExTask), exMeasure t < f → (exF f t).isSome = true := by
  intro f
  induction f with
  | zero => intro t h; exact absurd h (Nat.not_lt_zero _)
  | succ f ih =>
    intro t h
    cases t with
    | node d =>
      cases d with
      | null => simp [exF]
      | num n => simp [exF]
      | str s => simp [exF]
      | bool b => simp [exF]
      | arr items =>
        simp only [exF]
        refine ih _ ?_
        simp only [exMeasure, jsize] at h ⊢
        omega
      | obj fs =>
        have hP : (exF f (.scanP prioKeys fs)).isSome = true := by
          refine ih _ ?_
          simp only [exMeasure, jsize, prioKeys, List.length_cons, List.length_nil] at h ⊢
          omega
        have hF : (exF f (.scanF (JFields.take 20 fs))).isSome = true := by
          refine ih _ ?_
          have ht := take_jsize 20 fs
          simp only [exMeasure, jsize] at h ⊢
          omega
        obtain ⟨rp, hrp⟩ := Option.isSome_iff_exists.mp hP
        obtain ⟨rf, hrf⟩ := Option.isSome_iff_exists.mp hF
        simp only [exF]
        split
        · rename_i hd tl heq
          have hsz := lookup?_jsize fs heq
          have hH : (exF f (.node hd)).isSome = true := by
            refine ih _ ?_
            simp only [exMeasure, jsize] at h ⊢
            simp only [jsize, jsizeEs] at hsz
            omega
          obtain ⟨r, hr⟩ := Option.isSome_iff_exists.mp hH
          rw [hr, hrp, hrf]
          simp
        · rw [hrp, hrf]
          simp
        · rw [hrp, hrf]
          simp
    | scanL items =>
      cases items with
      | nil => simp [exF]
      | cons x rest =>
        simp only [exMeasure, jsizeEs] at h
        have hx : (exF f (.node x)).isSome = true := by
          refine ih _ ?_
          simp only [exMeasure]
          omega
        obtain ⟨r, hr⟩ := Option.isSome_iff_exists.mp hx
        simp only [exF]
        simp only [hr]
        cases hgr : goodO r with
        | true => simp [hgr]
        | false =>
          rw [if_neg Bool.false_ne_true]
          refine ih _ ?_
          simp only [exMeasure]
          omega
    | scanP keys fs =>
      cases keys with
      | nil => simp [exF]
      | cons k ks =>
        simp only [exMeasure, List.length_cons] at h
        simp only [exF]
        split
        · rename_i kfs heq
          have hsz := lookup?_jsize fs heq
          simp only [jsize] at hsz
          have hx : (exF f (.node (.obj kfs))).isSome = true := by
            refine ih _ ?_
            simp only [exMeasure, jsize]
            omega
          obtain ⟨r, hr⟩ := Option.isSome_iff_exists.mp hx
          simp only [hr]
          cases hgr : goodO r with
          | true => simp [hgr]
          | false =>
            rw [if_neg Bool.false_ne_true]
            refine ih _ ?_
            simp only [exMeasure]
            omega
        · refine ih _ ?_
          simp only [exMeasure]
          omega
    | scanF fields =>
      cases fields with
      | nil => simp [exF]
      | cons k v rest =>
        simp only [exMeasure, jsizeFs] at h
        simp only [exF]
        cases hc : (v.isObjOrArr && !(exclKeys.contains k)) with
        | false =>
          rw [if_neg Bool.false_ne_true]
          refine ih _ ?_
          simp only [exMeasure]
          omega
        | true =>
          rw [if_pos rfl]
          have hx : (exF f (.node v)).isSome = true := by
            refine ih _ ?_
            simp only [exMeasure]
            omega
          obtain ⟨r, hr⟩ := Option.isSome_iff_exists.mp hx
          simp only [hr]
          cases hgr : goodO r with
          | true => simp [hgr]
          | false =>
            rw [if_neg Bool.false_ne_true]
            refine ih _ ?_
            simp only [exMeasure]
            omega

/-- `update_video_stats` only touches the `last_*` counters: the
(owner, video_id, notified_at_views) view of the updated list is unchanged. -/
theorem updateFirstStats_idnot (u : Nat) (vid : String) (st : Snapshot) :
    ∀ (vs : List VideoEntry),
      (updateFirstStats vs vid st).map (fun e => (u, e.video_id, e.notified_at_views))
        = vs.map (fun e => (u, e.video_id, e.notified_at_views))
  | [] => rfl
  | v :: rest => by
    simp only [updateFirstStats]
    by_cases hv : v.video_id = vid
    · simp [hv]
    · simp [hv, updateFirstStats_idnot u vid st rest]

/-- `updateFirstStats` preserves the multiple-of-50,000 flag of every
record. -/
theorem updateFirstStats_all (vid : String) (st : Snapshot) :
    ∀ (vs : List VideoEntry), (updateFirstStats vs vid st).all multOk = vs.all multOk
  | [] => rfl
  | v :: rest => by
    simp only [updateFirstStats]
    by_cases hv : v.video_id = vid
    · simp [hv, multOk]
    · simp [hv, updateFirstStats_all vid st rest]

/-- Unfolding of `notifieds` on a cons cell. -/
theorem notifieds_cons (u : Nat) (vs : List VideoEntry) (rest : Store) :
    notifieds ((u, vs) :: rest)
      = vs.map (fun e => (u, e.video_id, e.notified_at_views)) ++ notifieds rest := by
  simp [notifieds]

/-- Replacing a user's list by one with the same
(video_id, notified_at_views) view leaves `notifieds` unchanged. -/
theorem notifieds_storeSet (u : Nat) (vs vs' : List VideoEntry)
    (hmap : ∀ x : Nat, vs'.map (fun e => (x, e.video_id, e.notified_at_views))
        = vs.map (fun e => (x, e.video_id, e.notified_at_views))) :
    ∀ (s : Store), storeGet? s u = some vs → notifieds (storeSet s u vs') = notifieds s
  | [], h => by simp [storeGet?] at h
  | (u0, vs0) :: rest, h => by
    simp only [storeGet?] at h
    simp only [storeSet]
    by_cases hu : u0 = u
    · rw [if_pos hu] at h ⊢
      cases h
      rw [notifieds_cons, notifieds_cons, hmap]
    · rw [if_neg hu] at h ⊢
      rw [notifieds_cons, notifieds_cons, notifieds_storeSet u vs vs' hmap rest h]

/-- `update_video_stats` never changes any record's notified milestone. -/
theorem notifieds_update_video_stats (u : Nat) (vid : String) (st : Snapshot) (s : Store) :
    notifieds (update_video_stats s u vid st) = notifieds s := by
  simp only [update_video_stats]
  rcases hg : storeGet? s u with _ | vs
  · simp only [hg]
  · simp only [hg]
    exact notifieds_storeSet u vs _ (fun x => updateFirstStats_idnot x vid st vs) s hg

/-- A user's list inside an all-multiple store is all-multiple. -/
theorem allMult_storeGet :
    ∀ (s : Store) (u : Nat) (vs : List VideoEntry),
      allMult s = true → storeGet? s u = some vs → vs.all multOk = true
  | [], u, vs, _, h => by simp [storeGet?] at h
  | (u0, vs0) :: rest, u, vs, hs, h => by
    simp only [storeGet?] at h
    simp only [allMult, List.all_cons, Bool.and_eq_true] at hs
    by_cases hu : u0 = u
    · rw [if_pos hu] at h
      cases h
      exact hs.1
    · rw [if_neg hu] at h
      exact allMult_storeGet rest u vs hs.2 h

/-- Writing an all-multiple list into an all-multiple store keeps the store
all-multiple. -/
theorem allMult_storeSet :
    ∀ (s : Store) (u : Nat) (vs : List VideoEntry),
      allMult s = true → vs.all multOk = true → allMult (storeSet s u vs) = true
  | [], u, vs, _, hvs => by simp [storeSet, allMult, hvs]
  | (u0, vs0) :: rest, u, vs, hs, hvs => by
    simp only [allMult, List.all_cons, Bool.and_eq_true] at hs
    simp only [storeSet]
    by_cases hu : u0 = u
    · rw [if_pos hu]
      simp only [allMult, List.all_cons, Bool.and_eq_true]
      exact ⟨hvs, hs.2⟩
    · rw [if_neg hu]
      simp only [allMult, List.all_cons, Bool.and_eq_true]
      exact ⟨hs.1, allMult_storeSet rest u vs hs.2 hvs⟩

/-- Setting a notified milestone to a multiple of 50,000 keeps the user's
list all-multiple. -/
theorem setFirstNotified_all (vid : String) (m : Nat) (hm : m % 50000 = 0) :
    ∀ (vs : List VideoEntry),
      vs.all multOk = true → (setFirstNotified vs vid m).all multOk = true
  | [], _ => by simp [setFirstNotified]
  | v :: rest, hvs => by
    simp only [List.all_cons, Bool.and_eq_true] at hvs
    simp only [setFirstNotified]
    by_cases hv : v.video_id = vid
    · rw [if_pos hv]
      simp only [List.all_cons, Bool.and_eq_true]
      exact ⟨by simp [multOk, hm], hvs.2⟩
    · rw [if_neg hv]
      simp only [List.all_cons, Bool.and_eq_true]
      exact ⟨hvs.1, setFirstNotified_all vid m hm rest hvs.2⟩

/-- A fired milestone value is a multiple of 50,000. -/
theorem evaluate_milestone_mod {p v m : Nat} (h : evaluate_milestone p v = some m) :
    m % 50000 = 0 := by
  simp only [evaluate_milestone] at h
  split at h
  · cases h
    exact Nat.mul_mod_left _ _
  · cases h

/-- `add_video` preserves the multiple-of-50,000 invariant (the fresh record
has notified milestone 0). -/
theorem allMult_add (s : Store) (u : Nat) (url vid now : String)
    (hs : allMult s = true) : allMult (add_video s u url vid now).2 = true := by
  simp only [add_video]
  have hvs : ((storeGet? s u).getD []).all multOk = true := by
    rcases hg : storeGet? s u with _ | vs
    · simp
    · simpa using allMult_storeGet s u vs hs hg
  by_cases hd : ((storeGet? s u).getD []).any (fun v => v.video_id = vid)
  · simp only [hd, if_pos rfl]
    exact hs
  · rw [if_neg (by simpa using hd)]
    refine allMult_storeSet s u _ hs ?_
    simp only [List.all_append, Bool.and_eq_true]
    exact ⟨hvs, by simp [mkVideoEntry, multOk]⟩

/-- `update_video_stats` preserves the multiple-of-50,000 invariant. -/
theorem allMult_update (s : Store) (u : Nat) (vid : String) (st : Snapshot)
    (hs : allMult s = true) : allMult (update_video_stats s u vid st) = true := by
  simp only [update_video_stats]
  rcases hg : storeGet? s u with _ | vs
  · exact hs
  · refine allMult_storeSet s u _ hs ?_
    rw [updateFirstStats_all]
    exact allMult_storeGet s u vs hs hg

/-- `setNotified` with a multiple of 50,000 preserves the invariant. -/
theorem allMult_setNot (s : Store) (u : Nat) (vid : String) (m : Nat)
    (hm : m % 50000 = 0) (hs : allMult s = true) :
    allMult (setNotified s u vid m) = true := by
  simp only [setNotified]
  rcases hg : storeGet? s u with _ | vs
  · exact hs
  · exact allMult_storeSet s u _ hs
      (setFirstNotified_all vid m hm vs (allMult_storeGet s u vs hs hg))

/-- The whole per-item sweep body preserves the multiple-of-50,000
invariant, whether or not a milestone fires and whether or not delivery
succeeds. -/
theorem allMult_step (s : Store) (u : Nat) (vid : String) (st : Snapshot)
    (ok : Bool) (hs : allMult s = true) :
    allMult (check_video_step s u vid st ok) = true := by
  simp only [check_video_step]
  rcases hfind : (get_user_videos s u).find? (fun v => v.video_id = vid) with _ | e
  · simp only [hfind]
    exact hs
  · simp only [hfind]
    rcases hev : evaluate_milestone e.notified_at_views st.views with _ | cm
    · simp only [hev]
      exact allMult_update s u vid st hs
    · simp only [hev]
      cases ok with
      | false =>
        rw [if_neg Bool.false_ne_true]
        exact allMult_update s u vid st hs
      | true =>
        rw [if_pos rfl]
        exact allMult_setNot _ u vid cm (evaluate_milestone_mod hev)
          (allMult_update s u vid st hs)

/-- A failed delivery leaves every notified milestone exactly as it was. -/
theorem notifieds_step_failed (s : Store) (u : Nat) (vid : String) (st : Snapshot) :
    notifieds (check_video_step s u vid st false) = notifieds s := by
  simp only [check_video_step]
  rcases hfind : (get_user_videos s u).find? (fun v => v.video_id = vid) with _ | e
  · simp only [hfind]
  · simp only [hfind]
    rcases hev : evaluate_milestone e.notified_at_views st.views with _ | cm
    · simp only [hev]
      exact notifieds_update_video_stats u vid st s
    · simp only [hev]
      rw [if_neg Bool.false_ne_true]
      exact notifieds_update_video_stats u vid st s

/-- The milestone comparison of lines 666-669 (which compares milestone
floors) is equivalent to comparing the current milestone floor directly
against the previously notified value: for a multiple of 50,000 the two
comparisons agree. -/
theorem evaluate_milestone_eq (p v : Nat) :
    evaluate_milestone p v =
      if 0 < v / 50000 * 50000 ∧ p < v / 50000 * 50000 then some (v / 50000 * 50000)
      else none := by
  have hiff : (v / 50000 * 50000 > p / 50000 * 50000 ∧ v / 50000 * 50000 > 0)
      ↔ (0 < v / 50000 * 50000 ∧ p < v / 50000 * 50000) := by omega
  simp only [evaluate_milestone]
  rw [if_congr hiff rfl rfl]

/-- Every snapshot `get_video_stats` returns passes the positivity gate of
line 254. -/
theorem get_video_stats_gate (vd : Json) (sm : Option Json) :
    (get_video_stats vd sm).all anyPosR = true := by
  simp only [get_video_stats]
  split
  · split
    · rename_i fs
      split
      · rename_i hpos
        simp [Option.all, hpos]
      · rfl
    · rfl
  · rfl

/-- C1 (confirmed): milestone evaluation returns the current milestone floor
`(v / 50000) * 50000` exactly when that floor is strictly greater than the
previously notified value `p` and strictly positive, and NoChange (`none`)
otherwise; and the single evaluation for a jump from 30,000 views
(previously notified milestone 0) to 162,000 views fires exactly the one
milestone 150,000. -/
theorem milestone_evaluation_spec :
    (∀ p v : Nat, evaluate_milestone p v =
      if 0 < v / 50000 * 50000 ∧ p < v / 50000 * 50000 then some (v / 50000 * 50000)
      else none)
    ∧ evaluate_milestone 0 162000 = some 150000 :=
  ⟨evaluate_milestone_eq, by decide⟩

/-- C2 (counterexample): with a failed delivery the milestone 150,000 fires
(the line-669 condition holds for previous 0 and 162,000 views), yet
`notified_at_views` keeps its previous value 0 instead of the fired 150,000:
the update at line 691 sits after `send_message` inside the `try`, so a
raised delivery error skips it. -/
theorem delivery_failure_not_recorded_cex :
    evaluate_milestone 0 162000 = some 150000
    ∧ check_video_step storeAdded 1 "v1" snap162 false
        = [(1, [⟨"v1", "url", "t", 162000, 10, 2, 1, 0⟩])] := by decide

/-- C2 (amended): when delivery fails the fired milestone is NOT recorded:
a sweep step with failed delivery leaves every record's notified milestone
unchanged, and the same milestone fires again and is recorded by the next
sweep whose delivery succeeds (retry-on-next-sweep, not at-most-once). -/
theorem delivery_failure_retry_semantics :
    (∀ (s : Store) (u : Nat) (vid : String) (st : Snapshot),
      notifieds (check_video_step s u vid st false) = notifieds s)
    ∧ check_video_step storeFailDelivery 1 "v1" snap162 true
        = [(1, [⟨"v1", "url", "t", 162000, 10, 2, 1, 150000⟩])] :=
  ⟨notifieds_step_failed, by decide⟩

/-- C3 (counterexample): the recursive JSON search applied to the all-zero
payload returns the all-zero stats record itself — its final
`return stats if stats else None` (line 462) tests only non-emptiness, not
positivity — rather than treating it as Absent. -/
theorem recursive_search_allzero_cex :
    extract_stats_from_json zeroPayload
      = some ⟨some (Json.num 0), some (Json.num 0), some (Json.num 0), some (Json.num 0)⟩ := by
  decide

/-- C3 (amended): `get_video_stats` itself never returns an all-zero
snapshot (everything it returns passes the positivity gate of line 254), and
the all-zero payload yields Absent there; the recursive helper
`_extract_stats_from_json`, however, can itself return an all-zero record
(see the counterexample) — only its call sites filter such results. -/
theorem allzero_gate_amended :
    (∀ (vd : Json) (sm : Option Json), (get_video_stats vd sm).all anyPosR = true)
    ∧ get_video_stats zeroPayload none = none :=
  ⟨get_video_stats_gate, by decide⟩

/-- C4 (code bug): removing a user's only tracked video raises KeyError —
line 96 deletes `self.data[user_key]` and line 98 then reads
`len(self.data[user_key])` — instead of returning Removed; with a second
tracked video the removal works and the removed id no longer appears in the
user's list. -/
theorem remove_video_last_item_keyerror :
    remove_video [(1, [⟨"v1", "url", "t", 5, 1, 1, 1, 0⟩])] 1 "v1" = RemoveResult.keyError
    ∧ remove_video [(1, [⟨"v1", "url", "t", 5, 1, 1, 1, 0⟩,
        ⟨"v2", "u2", "t", 6, 1, 1, 1, 0⟩])] 1 "v1"
        = RemoveResult.removed [(1, [⟨"v2", "u2", "t", 6, 1, 1, 1, 0⟩])]
    ∧ (get_user_videos [(1, [⟨"v2", "u2", "t", 6, 1, 1, 1, 0⟩])] 1).all
        (fun e => e.video_id != "v1") = true := by decide

/-- C5 (counterexample): with an existing store file whose contents fail to
parse, `load_data` catches the exception and returns the empty dict — the
tracker starts with an empty tracking state and nothing aborts, contrary to
the claimed refuse-to-start behavior. -/
theorem load_data_silent_empty_cex : load_data true none = ([] : Store) := by decide

/-- C5 (amended): a parse failure at startup is logged and swallowed:
`load_data` returns the empty state exactly as if no file existed, and a
successfully parsed store is returned as-is; startup never aborts on store
corruption. -/
theorem load_data_parse_failure_behavior :
    load_data true none = ([] : Store)
    ∧ load_data false none = ([] : Store)
    ∧ ∀ s : Store, load_data true (some s) = s :=
  ⟨rfl, rfl, fun _ => rfl⟩

/-- C6 (counterexample): a reachable violation of
`notified_at_views ≤ last_views`: after tracking v1 and a sweep observing
162,000 views (notified becomes 150,000), an update whose fetched view count
dropped to 100,000 leaves notified_at_views = 150,000 > last_views =
100,000 — `update_video_stats` does not clamp the notified milestone. -/
theorem notified_exceeds_views_cex :
    storeNotified = [(1, [⟨"v1", "url", "t", 162000, 10, 2, 1, 150000⟩])]
    ∧ update_video_stats storeNotified 1 "v1" snap100
        = [(1, [⟨"v1", "url", "t", 100000, 10, 2, 1, 150000⟩])]
    ∧ 100000 < 150000 := by decide

/-- C6 (amended): the multiple-of-50,000 half of the invariant holds and is
preserved by item creation, by metric updates and by the sweep's
post-notification update; the `notified_at_views ≤ last_views` half is not
an invariant — it is broken by an update whose fetched view count is lower
than the notified milestone (see the counterexample). -/
theorem milestone_multiple_invariant :
    (∀ (s : Store) (u : Nat) (url vid now : String),
      allMult s = true → allMult (add_video s u url vid now).2 = true)
    ∧ (∀ (s : Store) (u : Nat) (vid : String) (st : Snapshot),
      allMult s = true → allMult (update_video_stats s u vid st) = true)
    ∧ (∀ (s : Store) (u : Nat) (vid : String) (st : Snapshot) (ok : Bool),
      allMult s = true → allMult (check_video_step s u vid st ok) = true) :=
  ⟨allMult_add, allMult_update, allMult_step⟩

/-- C6 witness: the amended invariant applied to concrete stores. -/
theorem milestone_multiple_invariant_witness :
    allMult (add_video [] 1 "url" "v1" "t").2 = true
    ∧ allMult (update_video_stats storeAdded 1 "v1" snap162) = true
    ∧ allMult (check_video_step storeAdded 1 "v1" snap162 true) = true :=
  ⟨milestone_multiple_invariant.1 [] 1 "url" "v1" "t" (by decide),
   milestone_multiple_invariant.2.1 storeAdded 1 "v1" snap162 (by decide),
   milestone_multiple_invariant.2.2 storeAdded 1 "v1" snap162 true (by decide)⟩

/-- C7 (counterexample): on the payload {"data":{"stats":{...}}} the live
extractor returns Absent, not {views 1000, likes 5, shares 0, favorites 0}:
"data.stats" is not among its candidate locators ("stats",
"itemInfo.itemStruct.stats", "videoInfo.stats", root-level counter keys). -/
theorem data_stats_locator_cex : get_video_stats dataStatsPayload none = none := by decide

/-- C7 (amended): `get_video_stats` has no "data.stats" locator and yields
Absent on the scenario payload; the recursive search helper
`_extract_stats_from_json` does recover
{views 1000, likes 5, shares 0, favorites 0} from it, via its generic child
recursion rather than a dedicated locator. -/
theorem data_stats_amended :
    get_video_stats dataStatsPayload none = none
    ∧ extract_stats_from_json dataStatsPayload
        = some ⟨some (Json.num 1000), some (Json.num 5), some (Json.num 0),
            some (Json.num 0)⟩ := by decide

/-- C8 (counterexample): with playCount present with value 0 and viewCount
present with value 500, views normalizes to 500, not 0: Python `or` skips a
key whose present value is 0. -/
theorem zero_playcount_normalization_cex :
    normViews (.cons "playCount" (Json.num 0) (.cons "viewCount" (Json.num 500) .nil))
      = Json.num 500
    ∧ Json.num 500 ≠ Json.num 0 := by decide

/-- C8 (amended): each counter is normalized independently through its
ordered key list (views: playCount then viewCount; likes: diggCount then
likeCount), but the first key with a TRUTHY value wins: a key present with
value 0 or None is skipped like an absent key, and a counter with no truthy
candidate defaults to 0. -/
theorem normalization_truthy_first_wins :
    (∀ (n : Nat) (fs : JFields), 0 < n →
      normViews (.cons "playCount" (Json.num n) fs) = Json.num n)
    ∧ normViews (.cons "viewCount" (Json.num 500) .nil) = Json.num 500
    ∧ normViews (.cons "playCount" (Json.num 0) (.cons "viewCount" (Json.num 500) .nil))
        = Json.num 500
    ∧ normViews (.cons "playCount" Json.null .nil) = Json.num 0
    ∧ normViews .nil = Json.num 0
    ∧ normLikes (.cons "diggCount" (Json.num 0) (.cons "likeCount" (Json.num 7) .nil))
        = Json.num 7 := by
  refine ⟨?_, by decide, by decide, by decide, by decide, by decide⟩
  intro n fs hn
  have hne : (n != 0) = true := by simpa using Nat.pos_iff_ne_zero.mp hn
  simp [normViews, pyGet, JFields.lookup?, pyOr, truthy, hne]

/-- C8 witness: the general first-truthy-wins clause at a concrete input. -/
theorem normalization_truthy_first_wins_witness :
    normViews (.cons "playCount" (Json.num 3) (.cons "viewCount" (Json.num 500) .nil))
      = Json.num 3 :=
  normalization_truthy_first_wins.1 3 (.cons "viewCount" (Json.num 500) .nil) (by decide)

/-- C9 (counterexample): the search descends 12 object levels deep (there is
no 10-level depth bound) and examines the 11th element of a list (there is
no 10-element list bound), finding the stats in both cases where the claimed
bounds would have stopped it. -/
theorem search_bounds_cex :
    extract_stats_from_json deepPayload
      = some ⟨some (Json.num 7), some (Json.num 0), some (Json.num 0), some (Json.num 0)⟩
    ∧ extract_stats_from_json listPayload
      = some ⟨some (Json.num 3), some (Json.num 0), some (Json.num 0), some (Json.num 0)⟩ := by
  decide

/-- C9 (amended): the recursive search terminates on every input with work
bounded by the input size (fuel 8*size+8 always suffices); the only breadth
bound is the 20-key cut of the exhaustive fallback loop (stats under a 21st
key are missed, under a 20th key found); the priority container keys are
consulted before the insertion-order fallback; there is no depth bound and
no list-element bound (see the counterexample). -/
theorem search_termination_and_bounds :
    (∀ d : Json, (exF (exFuel d) (.node d)).isSome = true)
    ∧ extract_stats_from_json breadth21 = none
    ∧ extract_stats_from_json breadth20
      = some ⟨some (Json.num 9), some (Json.num 0), some (Json.num 0), some (Json.num 0)⟩
    ∧ extract_stats_from_json prioPayload
      = some ⟨some (Json.num 222), some (Json.num 0), some (Json.num 0), some (Json.num 0)⟩ := by
  refine ⟨?_, by decide, by decide, by decide⟩
  intro d
  refine exF_isSome _ _ ?_
  simp only [exFuel, exMeasure]
  omega

/-- C10 (counterexample): on an HTML payload that does contain the
__UNIVERSAL_DATA_FOR_REHYDRATION__ marker with a parseable stats fragment
(positive playCount), the extractor returns Absent: the HTML fragment and
regex logic (lines 268-396) is dead code behind the unconditional
`return None` at line 265. -/
theorem html_payload_absent_cex :
    get_video_stats (Json.str sampleHtml) none = none := by decide

/-- C10 (amended): the fragment-and-regex HTML logic survives only as
unreachable code (the old parsing methods were deliberately removed, per the
comment at line 267); the live extractor ignores a textual payload entirely:
a string payload behaves exactly like a missing payload, for every string
and every external stats() result. -/
theorem html_payload_ignored :
    ∀ (s : String) (sm : Option Json),
      get_video_stats (Json.str s) sm = get_video_stats Json.null sm :=
  fun _ _ => rfl
